import Mathlib

/-!
Verification development for the sisypho-sdk execution substrate.

Shallow embedding of the parts of the repository that the checked claims
are about:

* `src/execution/skill.py` — `SkillExecutor.decrypt_skill_code`,
  `SkillExecutor.execute_skill_code`, `SkillExecutor.execute_skill`,
  `load_and_execute_skill`;
* `src/sisypho/execution/persistent_mcp_client.py` — `PersistentMCPClient`
  (`_get_next_id`, `start`, `call_tool_structured`);
* `src/execution/recording.py` — `MCPRecordManager`
  (`initialize_all`, `get_all_tools`, `find_tool_server`);
* `src/sisypho/corelib/browser.py` — `ChromeManager.get_chrome_instance`,
  `_get_browser_client`, `should_restart_browser_session`,
  `ensure_fresh_browser_session`.

External libraries (pyotp, AES-CBC with PKCS#7 padding, JSON parsing,
Playwright) are idealised at their interface: a ciphertext unpads
successfully exactly when the derived key matches the key it was encrypted
under, and JSON parsing is an abstract `String → Option JVal` argument.
-/

namespace Sisypho

/-! ## SkillSandbox: `SkillExecutor.decrypt_skill_code` (src/execution/skill.py:223-246)

`pyotp.TOTP(secret).at(t)` computes an OTP code from the time-step counter
`int(t / 30)` (truncating division).  The derived AES key is
`sha256(secret + code)`, so two timestamps derive the same key exactly when
they fall in the same 30-second step.  We idealise the cipher: CBC
decryption followed by PKCS#7 `unpad` succeeds exactly when the key used
for decryption equals the key the payload was encrypted with. -/

/-- Time-step counter of the one-time-password library: `int(t / 30)`,
truncating toward zero as Python `int()` does. -/
def timecode (t : Int) : Int := Int.tdiv t 30

/-- The per-iteration offsets produced by `for i in range(-2, 5): offset = i * 30`. -/
def offsets : List Int := (List.range 7).map (fun i => ((i : Int) - 2) * 30)

/-- The sequence of timestamps whose derived keys `decrypt_skill_code`
actually tries.  The source reassigns its own parameter on every
iteration — `timestamp = int(timestamp) + int(offset)` — so the offsets
accumulate instead of being applied independently to the supplied
timestamp. -/
def triedTimestamps (timestamp : Int) : List Int :=
  (offsets.foldl
    (fun (acc : Int × List Int) off =>
      let ts := acc.1 + off
      (ts, acc.2 ++ [ts]))
    (timestamp, [])).2

/-- A skill payload: ciphertext abstracted to the timestamp whose
time-step keyed its encryption, plus the plaintext it decrypts to. -/
structure EncryptedSkill where
  encTime : Int
  plaintext : String
  deriving Repr, DecidableEq

/-- `SkillExecutor.decrypt_skill_code`: walk the tried timestamps in
order; the first whose time-step (hence derived key) matches the
encryption step yields the plaintext; exhausting all of them yields
`none` (the Python `None`), never an exception. -/
def decrypt_skill_code (payload : EncryptedSkill) (timestamp : Int) : Option String :=
  ((triedTimestamps timestamp).find?
    (fun ts => timecode ts == timecode payload.encTime)).map
    (fun _ => payload.plaintext)

/-- Modelled from the spec: the decrypt loop the spec (and the code's own
per-iteration `offset` variable) describes, where each offset is applied
to the *supplied* timestamp — `totp.at(timestamp + i*30)` for
`i = -2 .. 4` — rather than to the running value. -/
def specTriedTimestamps (timestamp : Int) : List Int :=
  offsets.map (fun off => timestamp + off)

/-- Modelled from the spec: decryption as specified, trying step offsets
two back through four forward around the supplied timestamp, in order. -/
def decrypt_skill_code_spec (payload : EncryptedSkill) (timestamp : Int) : Option String :=
  ((specTriedTimestamps timestamp).find?
    (fun ts => timecode ts == timecode payload.encTime)).map
    (fun _ => payload.plaintext)

/-! ## ProtocolClient: `PersistentMCPClient`
(src/sisypho/execution/persistent_mcp_client.py) -/

/-- Structured values that `json.loads` can return; enough of Python's
data model for the tool-call result path. -/
inductive JVal where
  | null
  | bool (b : Bool)
  | num (n : Int)
  | str (s : String)
  deriving Repr, DecidableEq

/-- One element of a tool-call response's `content` array.  The source
reads it with `item.get("type")` and `item.get("text", "")`, so an absent
`text` field is the empty string. -/
structure ContentItem where
  itemType : String
  text : String
  deriving Repr, DecidableEq

/-- A decoded tool-call response: either it carries an `error` field, or a
`result.content` array (`response.get("result", {}).get("content", [])`,
so an absent result is the empty array). -/
structure MCPResponse where
  error : Option String
  content : List ContentItem
  deriving Repr, DecidableEq

/-- What the one blocking `_send_message` / `_receive_message` round trip
inside the `try` of `call_tool_structured` does: either some exception is
raised (process gone, stream closed, malformed line), or a response
object arrives. -/
inductive CallTransport where
  | raises (msg : String)
  | responds (r : MCPResponse)
  deriving Repr, DecidableEq

/-- The content-scanning loop of `call_tool_structured` (lines 211-229):
walk the content array; at the *first* item whose `type` is `"text"`,
return `None` if its text is empty or whitespace-only, otherwise
`json.loads(text)` if that parses and the raw text if not; if no
text-typed item exists, return `None`.  `loads` abstracts `json.loads`
(returning `none` on `JSONDecodeError`). -/
def scanContent (loads : String → Option JVal) : List ContentItem → Option JVal
  | [] => none
  | item :: rest =>
    if item.itemType == "text" then
      if item.text == "" || item.text.trim == "" then none
      else
        match loads item.text with
        | some v => some v
        | none => some (JVal.str item.text)
    else scanContent loads rest

/-- Response handling of `call_tool_structured` once a response object is
in hand: an `error` field yields `None`; otherwise the content array is
scanned. -/
def processResponse (loads : String → Option JVal) (resp : MCPResponse) : Option JVal :=
  match resp.error with
  | some _ => none
  | none => scanContent loads resp.content

/-- The lazy `start()` at the top of `call_tool_structured`: a no-op when
the client is already initialized; otherwise the whole spawn / handshake /
tools-list sequence runs and — per `start`'s `except` clause (lines
107-110) — re-raises on any failure.  `startResult` is the outcome of
that sequence.  This call happens *outside* the `try` block of
`call_tool_structured`. -/
def lazyStart (isInit : Bool) (startResult : Except String Unit) : Except String Unit :=
  if isInit then Except.ok () else startResult

/-- `PersistentMCPClient.call_tool_structured` (lines 180-233).  The
returned `Except.error` means an exception propagates to the caller;
`Except.ok v` means the method returns the Python value `v` (`Option.none`
is Python `None`). -/
def call_tool_structured (loads : String → Option JVal) (isInit : Bool)
    (startResult : Except String Unit) (transport : CallTransport) :
    Except String (Option JVal) :=
  match lazyStart isInit startResult with
  | Except.error e => Except.error e
  | Except.ok () =>
    match transport with
    | CallTransport.raises _ => Except.ok none
    | CallTransport.responds r => Except.ok (processResponse loads r)

/-- The first text-typed item of a content array, used to state what the
scanning loop computes. -/
def firstTextItem (content : List ContentItem) : Option ContentItem :=
  content.find? (fun item => item.itemType == "text")

/-! ### Request ids (`_get_next_id`, lines 50-53) and the wire trace -/

/-- `PersistentMCPClient._get_next_id`: increment the counter, return the
new value.  Result is (new counter state, assigned id). -/
def get_next_id (request_id : Nat) : Nat × Nat := (request_id + 1, request_id + 1)

/-- The protocol operations a connection issues.  `initReq`
(`_initialize`), `toolsList` (`_list_tools`) and `toolsCall`
(`call_tool_structured` / `call_tool`) each draw a request id via
`_get_next_id`; the two notifications carry no id and expect no
response. -/
inductive ReqKind where
  | initReq
  | initNote
  | toolsList
  | toolsCall
  | shutdownNote
  deriving Repr, DecidableEq

/-- Whether an operation draws a request id (and performs the blocking
read of exactly one response line). -/
def usesId : ReqKind → Bool
  | ReqKind.initReq => true
  | ReqKind.toolsList => true
  | ReqKind.toolsCall => true
  | ReqKind.initNote => false
  | ReqKind.shutdownNote => false

/-- Events on the pipe pair, client side: a write of one request line
(with its id, if any) and a read of one response line (tagged with the id
of the request it answers — the read happens while that request is the
single outstanding one). -/
inductive WireEvent where
  | send (id : Option Nat) (k : ReqKind)
  | recv (id : Nat)
  deriving Repr, DecidableEq

/-- The wire trace of a sequence of operations on one connection,
threading the `request_id` counter through `_get_next_id`: every
id-bearing request is written and then immediately answered by the one
blocking `_receive_message`; notifications are fire-and-forget. -/
def wireTrace (request_id : Nat) : List ReqKind → List WireEvent
  | [] => []
  | op :: rest =>
    if usesId op then
      let next := get_next_id request_id
      WireEvent.send (some next.2) op :: WireEvent.recv next.2 :: wireTrace next.1 rest
    else
      WireEvent.send none op :: wireTrace request_id rest

/-- The request ids assigned along a trace, in send order. -/
def sentIds (trace : List WireEvent) : List Nat :=
  trace.filterMap (fun e =>
    match e with
    | WireEvent.send i _ => i
    | WireEvent.recv _ => none)

/-- Sequential request/response matching: every id-bearing send is
immediately followed by the receive of the response to that very id (at
most one request is ever outstanding), and every receive answers the send
directly before it. -/
def wellMatched : List WireEvent → Bool
  | [] => true
  | WireEvent.send (some i) _ :: WireEvent.recv j :: rest => i == j && wellMatched rest
  | WireEvent.send none _ :: rest => wellMatched rest
  | _ => false

/-! ## BackendRegistry: `MCPRecordManager` (src/execution/recording.py) -/

/-- One registered backend as `find_tool_server` sees it: its registered
name and the cached tool-name list obtained from `get_all_tools` (a
backend whose `get_tools` raised contributes the empty list, lines
123-125). -/
structure MCPServer where
  name : String
  tools : List String
  deriving Repr, DecidableEq

/-- `MCPRecordManager.find_tool_server` (lines 129-146): iterate the
servers in registration order (`self.clients` is an insertion-ordered
dict); inside each, iterate its tools; return the first server owning a
tool of the requested name; `none` when no server does. -/
def find_tool_server (servers : List MCPServer) (tool_name : String) : Option String :=
  match servers with
  | [] => none
  | s :: rest =>
    match s.tools.find? (fun t => t == tool_name) with
    | some _ => some s.name
    | none => find_tool_server rest tool_name

/-- One registered client as `initialize_all` sees it: its name and
whether its `start()` succeeds (raises otherwise). -/
structure RecClient where
  name : String
  startOk : Bool
  deriving Repr, DecidableEq

/-- `MCPRecordManager` state relevant to `initialize_all`: the registered
clients in registration order and the `initialized` flag. -/
structure RecManager where
  clients : List RecClient
  initialized : Bool
  deriving Repr, DecidableEq

/-- The observable outcome of `initialize_all`: which clients had
`start()` attempted on them (in order), which of those started
successfully, the boolean return value, and the manager state
afterwards. -/
structure InitOutcome where
  attempted : List String
  started : List String
  success : Bool
  final : RecManager
  deriving Repr, DecidableEq

/-- `MCPRecordManager.initialize_all` (lines 80-105): if already
initialized, return `True` at once; otherwise loop over *every* client,
calling `start()` on each inside its own `try` — a failure flips
`success` to `False` but the loop continues — and finally store and
return `success`.  `initStep` is one iteration of that loop. -/
def initStep (acc : List String × List String × Bool) (c : RecClient) :
    List String × List String × Bool :=
  if c.startOk then (acc.1 ++ [c.name], acc.2.1 ++ [c.name], acc.2.2)
  else (acc.1 ++ [c.name], acc.2.1, false)

def initialize_all (m : RecManager) : InitOutcome :=
  if m.initialized then
    { attempted := [], started := [], success := true, final := m }
  else
    let r := m.clients.foldl initStep ([], [], true)
    { attempted := r.1, started := r.2.1, success := r.2.2,
      final := { m with initialized := r.2.2 } }

/-! ## BrowserSessionManager (src/sisypho/corelib/browser.py) -/

/-- The acquisition tiers of `_get_browser_client`: attach over CDP to
the instance `get_chrome_instance` reported; launch the located Chrome
via Playwright with the profile directory; launch the located Chrome
via Playwright with no profile; launch Playwright's bundled Chromium. -/
inductive Tier where
  | attachCDP
  | launchWithProfile
  | launchStandard
  | bundled
  deriving Repr, DecidableEq

/-- Environment facts `ChromeManager.get_chrome_instance` (lines 354-409)
depends on, for a freshly constructed manager: whether
`find_chrome_installation` locates an executable, whether
`get_user_chrome_profile_dir` finds the user profile, the port of an
already-debuggable Chrome if `check_existing_chrome_debug_instances`
finds one, and whether `launch_chrome_with_debugging` succeeds. -/
structure ChromeEnv where
  chromeFound : Bool
  userProfileFound : Bool
  existingDebugPort : Option Nat
  launchDebugOk : Bool
  deriving Repr, DecidableEq

/-- Outcomes of the four launch/connect attempts inside
`_get_browser_client` (lines 440-555). -/
structure BrowserEnv where
  cdpOk : Bool
  profileLaunchOk : Bool
  standardLaunchOk : Bool
  bundledOk : Bool
  deriving Repr, DecidableEq

/-- `ChromeManager.get_chrome_instance` on a fresh manager: no executable
located means `(None, None, None)` at once; with the executable located,
an already-debuggable instance (only probed when the user profile was
found) is attached; otherwise a profile directory is prepared (clone of
the user profile, or a bare temp directory) and Chrome is launched with a
debug port — and a launch failure *also* returns `(None, None, None)`,
discarding the located executable path (lines 406-409). -/
def get_chrome_instance (env : ChromeEnv) : Option String × Option String × Option Nat :=
  if !env.chromeFound then (none, none, none)
  else if env.userProfileFound && env.existingDebugPort.isSome then
    (some "chrome", some "userProfile", env.existingDebugPort)
  else if env.launchDebugOk then
    (some "chrome", some "tempProfile", some 9222)
  else (none, none, none)

/-- Tier 4 of `_get_browser_client`: launch Playwright's bundled
Chromium; on failure raise `RuntimeError` — the only fatal browser
error.  Result is (tiers attempted from here on, outcome). -/
def tryBundled (benv : BrowserEnv) : List Tier × Except String Tier :=
  ([Tier.bundled],
   if benv.bundledOk then Except.ok Tier.bundled
   else Except.error "Unable to launch any browser instance")

/-- Tier 3 of `_get_browser_client` (guarded by `if chrome_path:`):
launch the located Chrome with no profile; an exception falls through to
the bundled tier. -/
def tryStandard (chromePath : Option String) (benv : BrowserEnv) :
    List Tier × Except String Tier :=
  if chromePath.isSome then
    if benv.standardLaunchOk then ([Tier.launchStandard], Except.ok Tier.launchStandard)
    else
      let r := tryBundled benv
      (Tier.launchStandard :: r.1, r.2)
  else tryBundled benv

/-- Fallback 1 of `_get_browser_client` (guarded by
`if chrome_path and profile_dir:`): launch the located Chrome with the
prepared profile directory; an exception falls through. -/
def tryProfileLaunch (chromePath profileDir : Option String) (benv : BrowserEnv) :
    List Tier × Except String Tier :=
  if chromePath.isSome && profileDir.isSome then
    if benv.profileLaunchOk then
      ([Tier.launchWithProfile], Except.ok Tier.launchWithProfile)
    else
      let r := tryStandard chromePath benv
      (Tier.launchWithProfile :: r.1, r.2)
  else tryStandard chromePath benv

/-- `_get_browser_client` below its page-reuse check (lines 456-555),
given what `get_chrome_instance` returned: connect over CDP when both an
executable path and a debug port are in hand (an exception falls
through), then the three Playwright launch fallbacks in order.  Returns
the tiers attempted, in order, and either the tier that produced a page
or the fatal error.  -/
def get_browser_client (chromePath profileDir : Option String) (debugPort : Option Nat)
    (benv : BrowserEnv) : List Tier × Except String Tier :=
  if chromePath.isSome && debugPort.isSome then
    if benv.cdpOk then ([Tier.attachCDP], Except.ok Tier.attachCDP)
    else
      let r := tryProfileLaunch chromePath profileDir benv
      (Tier.attachCDP :: r.1, r.2)
  else tryProfileLaunch chromePath profileDir benv

/-- Fresh acquisition end to end: `get_chrome_instance` followed by
`_get_browser_client`'s connect/launch chain. -/
def acquire_browser (cenv : ChromeEnv) (benv : BrowserEnv) :
    List Tier × Except String Tier :=
  let r := get_chrome_instance cenv
  get_browser_client r.1 r.2.1 r.2.2 benv

/-! ### Session reuse (`should_restart_browser_session`,
`ensure_fresh_browser_session`, lines 583-612 and 991-1010) -/

/-- The live-session facts the acquisition path observes: whether the
global page handle exists and reports open, whether the `document.title`
probe succeeds, the session age in seconds (`none` when no manager or
start time exists; modelled in whole seconds, so the `int()` truncation
in `get_browser_health_info` and the raw comparison at line 397 agree),
the Chrome process memory in MB (`none` when unobservable), whether the
manager's cached debug port still has a listening Chrome
(`self.debug_port and self.is_port_open(self.debug_port)`, line 395),
and the session's identity (its debug port). -/
structure SessionState where
  pageOpen : Bool
  pageResponsive : Bool
  sessionAge : Option Nat
  memoryMB : Option Nat
  debugPortOpen : Bool
  sessionId : Nat
  deriving Repr, DecidableEq

/-- `should_restart_browser_session` (lines 991-1010): restart when the
session age is truthy and exceeds 1800 seconds, or the observed memory
exceeds 1024 MB, or the page is active but the responsiveness probe
failed. -/
def should_restart_browser_session (st : SessionState) : Bool :=
  (match st.sessionAge with
   | some a => (a != 0) && decide (1800 < a)
   | none => false)
  || (match st.memoryMB with
      | some m => decide (1024 < m)
      | none => false)
  || (st.pageOpen && !(st.pageOpen && st.pageResponsive))

/-- Result of one acquisition through `ensure_fresh_browser_session`:
the existing session is reused through its open page handle (same page,
same debug port); or the page handle was closed but the manager
reattached over CDP to its still-running Chrome on the cached debug port
(same session identity, no teardown); or a new session was acquired —
with `tornDown` recording whether a teardown (process terminate with
grace-then-kill, temp-profile removal) ran on the old one first. -/
inductive AcquireResult where
  | reused (id : Nat)
  | reattached (id : Nat)
  | replaced (tornDown : Bool) (id : Nat)
  deriving Repr, DecidableEq

/-- The age guard of the cached-instance branch of `get_chrome_instance`
(line 397): `self.session_start_time and
(time.time() - self.session_start_time) > 1800`. -/
def cachedInstanceOverTTL (st : SessionState) : Bool :=
  match st.sessionAge with
  | some a => decide (1800 < a)
  | none => false

/-- `ensure_fresh_browser_session` (lines 583-612): tear the whole
session down via `_cleanup_browser` (which also discards the manager)
when `should_restart_browser_session` says so, then call
`_get_browser_client`.  That call returns the existing page when it is
open; otherwise it re-enters `get_chrome_instance` on the cached
manager, whose lines 394-402 find the cached debug port still open and —
unless the cached instance is over the TTL, in which case
`cleanup_chrome_instance` tears it down and a new instance is launched —
reuse it: the CDP connect then reattaches to the same Chrome, same debug
port, with no teardown.  With no live cached port, a new instance is
launched (or the tier chain runs); `freshId` is whatever identity that
produces. -/
def ensure_fresh_browser_session (st : SessionState) (freshId : Nat) : AcquireResult :=
  if should_restart_browser_session st then AcquireResult.replaced true freshId
  else if st.pageOpen then AcquireResult.reused st.sessionId
  else if st.debugPortOpen then
    if cachedInstanceOverTTL st then AcquireResult.replaced true freshId
    else AcquireResult.reattached st.sessionId
  else AcquireResult.replaced false freshId

/-! ## SkillSandbox: executing decrypted code
(src/execution/skill.py, `execute_skill_code`, `execute_skill`,
`load_and_execute_skill`) -/

/-- Python values, as far as the skill-execution path inspects them:
`execute_skill_code` has no `return` statement, so it evaluates to
`None`; `execute_skill` then tests that value for truthiness. -/
inductive PyVal where
  | pyNone
  | pyBool (b : Bool)
  | pyStr (s : String)
  deriving Repr, DecidableEq

/-- Python truthiness for the values above. -/
def truthy : PyVal → Bool
  | PyVal.pyNone => false
  | PyVal.pyBool b => b
  | PyVal.pyStr s => s != ""

/-- What `exec(skill_code, namespace)` plus the entry-symbol lookup can
come to.  The prebuilt namespace binds no name `run` (only the corelib
capability functions), so after `exec` either the source defined no
binding named `run` (`namespace["run"]` raises `KeyError`), or it is not
callable, or calling it raises, or the call returns a value — which
`execute_skill_code` discards, because `func_obj(**parameters)` is a bare
expression statement. -/
inductive ExecBehavior where
  | noRun
  | runNotCallable
  | runRaises (msg : String)
  | runReturns (v : PyVal)
  deriving Repr, DecidableEq

/-- `SkillExecutor.execute_skill_code` (lines 102-127): empty code raises
`ValueError`; a missing `run` binding raises `KeyError`; a non-callable
one raises `ValueError`; an exception inside `run` propagates; otherwise
the method falls off its end and returns `None`. -/
def execute_skill_code (skill_code : String) (beh : ExecBehavior) :
    Except String PyVal :=
  if skill_code == "" then Except.error "No code to execute"
  else
    match beh with
    | ExecBehavior.noRun => Except.error "KeyError: run"
    | ExecBehavior.runNotCallable => Except.error "Function run is not callable"
    | ExecBehavior.runRaises m => Except.error m
    | ExecBehavior.runReturns _ => Except.ok PyVal.pyNone

/-- `SkillExecutor.execute_skill` (lines 248-270), taking the value
`decrypt_skill_code` produced for the payload.  A falsy decryption
result (Python `None` or the empty string) skips execution and returns
`True`; otherwise `code_success = self.execute_skill_code(...)` (always
`None`), and `if not code_success and self.stop_on_failure: return
False`, else `return True`.  Exceptions from `execute_skill_code`
propagate. -/
def execute_skill (decrypted : Option String) (beh : ExecBehavior)
    (stop_on_failure : Bool) : Except String Bool :=
  match decrypted with
  | none => Except.ok true
  | some code =>
    if code == "" then Except.ok true
    else
      match execute_skill_code code beh with
      | Except.error e => Except.error e
      | Except.ok code_success =>
        if !truthy code_success && stop_on_failure then Except.ok false
        else Except.ok true

/-- `load_and_execute_skill` (lines 273-313): load the file, run
`execute_skill`, and catch *every* exception, turning it into `False`. -/
def load_and_execute_skill (loadResult : Except String String)
    (decrypted : Option String) (beh : ExecBehavior) (stop_on_failure : Bool) : Bool :=
  match loadResult with
  | Except.error _ => false
  | Except.ok _ =>
    match execute_skill decrypted beh stop_on_failure with
    | Except.error _ => false
    | Except.ok b => b

/-! ## Theorems -/

/-- C1: the claim says `decrypt_skill_code` tries the derived keys for
timestamps `T-60 .. T+120` (step offsets two back through four forward)
in order, succeeding whenever drift is within that window (e.g. +25s).
The source instead reassigns `timestamp` each iteration, so the tried
timestamps accumulate: for `T = 125` they are
`[65, 35, 35, 65, 125, 215, 335]`, not `[65, 95, 125, 155, 185, 215, 245]`.
A payload encrypted at time 100 (time-step 3) and decrypted with supplied
timestamp 125 (drift +25s) must succeed per the claim — the spec-faithful
loop does — but the code returns no plaintext, because no tried timestamp
lands in step 3.  (At drift +300s, code and claim agree on `none`.) -/
theorem C1_decrypt_cumulative_offset_bug :
    triedTimestamps 125 = [65, 35, 35, 65, 125, 215, 335] ∧
    specTriedTimestamps 125 = [65, 95, 125, 155, 185, 215, 245] ∧
    decrypt_skill_code ⟨100, "plaintext"⟩ 125 = none ∧
    decrypt_skill_code_spec ⟨100, "plaintext"⟩ 125 = some "plaintext" ∧
    decrypt_skill_code ⟨100, "plaintext"⟩ 400 = none ∧
    decrypt_skill_code_spec ⟨100, "plaintext"⟩ 400 = none := by
  refine ⟨by decide, by decide, by decide, by decide, by decide, by decide⟩

/-- C2 counterexample: the claim says a call on the client never raises,
with transport errors during the lazy `start()` also converted to `None`.
But the lazy `start()` at the top of `call_tool_structured` sits outside
the method's `try` block and `start` re-raises its failures, so a call on
a not-yet-initialized client whose start fails raises to the caller
instead of returning `None`. -/
theorem C2_counterexample_lazy_start_raises :
    call_tool_structured (fun _ => none) false (Except.error "spawn failed")
      (CallTransport.responds { error := none, content := [] }) =
      Except.error "spawn failed" := by
  rfl

/-- C2 as amended: provided the lazy `start()` does not raise (the client
was already initialized, or the start sequence succeeds), a call never
raises: it returns some payload value, and every transport fault raised
during the send/receive round trip itself is converted to `None`. -/
theorem C2_call_conceals_transport_errors_after_start
    (loads : String → Option JVal) (isInit : Bool)
    (startResult : Except String Unit) (transport : CallTransport)
    (h : lazyStart isInit startResult = Except.ok ()) :
    ∃ v : Option JVal,
      call_tool_structured loads isInit startResult transport = Except.ok v ∧
      (∀ m, transport = CallTransport.raises m → v = none) := by
  unfold call_tool_structured
  rw [h]
  cases transport with
  | raises m => exact ⟨none, rfl, fun _ _ => rfl⟩
  | responds r => exact ⟨processResponse loads r, rfl, fun m hm => by cases hm⟩

/-- C2 witness: a concrete initialized client whose transport raises
mid-call still returns a value rather than raising. -/
theorem C2_call_conceals_transport_errors_after_start_witness :
    ∃ v : Option JVal,
      call_tool_structured (fun _ => none) true (Except.error "unused")
        (CallTransport.raises "Server closed connection") = Except.ok v ∧
      (∀ m, CallTransport.raises "Server closed connection" =
        CallTransport.raises m → v = none) :=
  C2_call_conceals_transport_errors_after_start (fun _ => none) true
    (Except.error "unused") (CallTransport.raises "Server closed connection") rfl

/-- C3: `find_tool_server` returns the first-registered server whose
cached tool list contains the requested name: if no server registered
before `s` lists the tool and `s` does, resolution returns `s.name`,
whatever is registered after it — in particular, on a name collision the
earlier-registered server wins deterministically. -/
theorem C3_find_tool_server_first_registered
    (pre : List MCPServer) (s : MCPServer) (post : List MCPServer)
    (tool_name : String)
    (hpre : ∀ s2 ∈ pre, tool_name ∉ s2.tools) (hs : tool_name ∈ s.tools) :
    find_tool_server (pre ++ s :: post) tool_name = some s.name := by
  induction pre with
  | nil =>
    simp only [List.nil_append, find_tool_server]
    have hfind : s.tools.find? (fun t => t == tool_name) ≠ none := by
      intro hnone
      rw [List.find?_eq_none] at hnone
      have := hnone tool_name hs
      simp at this
    cases hf : s.tools.find? (fun t => t == tool_name) with
    | none => exact absurd hf hfind
    | some t => rfl
  | cons s2 rest ih =>
    simp only [List.cons_append, find_tool_server]
    have hnone : s2.tools.find? (fun t => t == tool_name) = none := by
      rw [List.find?_eq_none]
      intro t ht hbeq
      exact hpre s2 (List.mem_cons_self s2 rest) (by
        have : t = tool_name := by simpa using hbeq
        exact this ▸ ht)
    rw [hnone]
    exact ih (fun s3 h3 => hpre s3 (List.mem_cons_of_mem s2 h3))

/-- C3 witness: two backends exposing the same tool name `"shared"`;
resolution returns the first-registered one. -/
theorem C3_find_tool_server_first_registered_witness :
    find_tool_server
      [{ name := "axdriver", tools := ["click", "shared"] },
       { name := "chromebridge", tools := ["shared", "navigate"] }]
      "shared" = some "axdriver" :=
  C3_find_tool_server_first_registered []
    { name := "axdriver", tools := ["click", "shared"] }
    [{ name := "chromebridge", tools := ["shared", "navigate"] }]
    "shared" (by intro s2 h; cases h) (by decide)

/-- The content-scanning loop decides everything at the *first*
text-typed item of the content array. -/
theorem scanContent_eq_firstTextItem (loads : String → Option JVal)
    (content : List ContentItem) :
    scanContent loads content =
      (match firstTextItem content with
       | none => none
       | some item =>
         if item.text == "" || item.text.trim == "" then none
         else
           match loads item.text with
           | some v => some v
           | none => some (JVal.str item.text)) := by
  induction content with
  | nil => rfl
  | cons item rest ih =>
    by_cases h : (item.itemType == "text") = true
    · simp [scanContent, firstTextItem, List.find?_cons_of_pos, h]
    · have h2 : (item.itemType == "text") = false := by
        cases hb : item.itemType == "text" with
        | true => exact absurd hb h
        | false => rfl
      simpa [scanContent, firstTextItem, List.find?_cons_of_neg, h2,
        Bool.not_eq_true] using ih

/-- C4 counterexample: the claim says the client returns the first
*non-empty* text item of a successful response, and that an empty text
item yields a "no result" outcome *distinct* from the failure outcome.
On a successful response whose first text-typed item is empty and whose
second is `"hello"`, the code returns `None` at the first text item —
not `"hello"` — and that `None` is exactly the value an error response
yields, so the two outcomes are not distinct. -/
theorem C4_counterexample_empty_first_text_item :
    processResponse (fun _ => none)
      { error := none,
        content := [{ itemType := "text", text := "" },
                    { itemType := "text", text := "hello" }] } = none ∧
    processResponse (fun _ => none)
      { error := some "tool failed", content := [] } = none := by
  exact ⟨rfl, rfl⟩

/-- C4 as amended: for every successful response, the *first text-typed*
item alone decides the result — non-empty text is returned (parsed if
`loads` succeeds, raw otherwise); an empty or whitespace-only first text
item, or a content array with no text item, yields `None`, the same value
a failure yields. -/
theorem C4_response_parsing_first_text_typed_item
    (loads : String → Option JVal) (resp : MCPResponse) :
    processResponse loads resp =
      (match resp.error with
       | some _ => none
       | none =>
         match firstTextItem resp.content with
         | none => none
         | some item =>
           if item.text == "" || item.text.trim == "" then none
           else
             match loads item.text with
             | some v => some v
             | none => some (JVal.str item.text)) := by
  unfold processResponse
  cases resp.error with
  | some e => rfl
  | none => exact scanContent_eq_firstTextItem loads resp.content

/-- Ids drawn along a wire trace form a strictly increasing chain, all
above the counter value the trace started from. -/
theorem sentIds_wireTrace_chain (request_id : Nat) (ops : List ReqKind) :
    List.Chain' (· < ·) (sentIds (wireTrace request_id ops)) ∧
    ∀ i ∈ sentIds (wireTrace request_id ops), request_id < i := by
  induction ops generalizing request_id with
  | nil =>
    constructor
    · simp [wireTrace, sentIds]
    · intro i hi
      simp [wireTrace, sentIds] at hi
  | cons op rest ih =>
    by_cases h : usesId op
    · have hx : sentIds (wireTrace request_id (op :: rest)) =
          (request_id + 1) :: sentIds (wireTrace (request_id + 1) rest) := by
        simp [wireTrace, h, get_next_id, sentIds, List.filterMap_cons]
      rw [hx]
      obtain ⟨hch, hlt⟩ := ih (request_id + 1)
      refine ⟨List.chain'_cons'.mpr ⟨fun b hb => hlt b (List.mem_of_mem_head? hb), hch⟩, ?_⟩
      intro i hi
      rcases List.mem_cons.mp hi with rfl | hi
      · exact Nat.lt_succ_self _
      · exact Nat.lt_of_succ_lt (hlt i hi)
    · have hx : sentIds (wireTrace request_id (op :: rest)) =
          sentIds (wireTrace request_id rest) := by
        simp [wireTrace, h, sentIds, List.filterMap_cons]
      rw [hx]
      exact ih request_id

/-- Every wire trace the client generates is sequentially matched: each
id-bearing request is immediately answered by the response to that very
id, so at most one request is ever outstanding. -/
theorem wellMatched_wireTrace (request_id : Nat) (ops : List ReqKind) :
    wellMatched (wireTrace request_id ops) = true := by
  induction ops generalizing request_id with
  | nil => rfl
  | cons op rest ih =>
    by_cases h : usesId op
    · simp [wireTrace, h, get_next_id, wellMatched, ih]
    · simp [wireTrace, h, wellMatched, ih]

/-- C5: over any sequence of operations on one connection, the request
ids drawn from `_get_next_id` are strictly increasing, no id is ever
reused, and each response is matched to the single request outstanding
at send time. -/
theorem C5_request_ids_strictly_increasing (request_id : Nat) (ops : List ReqKind) :
    List.Chain' (· < ·) (sentIds (wireTrace request_id ops)) ∧
    (sentIds (wireTrace request_id ops)).Nodup ∧
    wellMatched (wireTrace request_id ops) = true := by
  obtain ⟨hch, _⟩ := sentIds_wireTrace_chain request_id ops
  refine ⟨hch, ?_, wellMatched_wireTrace request_id ops⟩
  have hp : (sentIds (wireTrace request_id ops)).Pairwise (· < ·) :=
    List.chain'_iff_pairwise.mp hch
  exact hp.imp Nat.ne_of_lt

/-- What the `initialize_all` loop computes, for any starting
accumulator: every client is attempted, the started sublist collects
exactly the clients whose `start()` succeeded, and the flag ends up true
iff it began true and every `start()` succeeded. -/
theorem foldl_initStep (cs : List RecClient) (a st : List String) (s : Bool) :
    cs.foldl initStep (a, st, s) =
      (a ++ cs.map RecClient.name,
       st ++ (cs.filter RecClient.startOk).map RecClient.name,
       s && cs.all RecClient.startOk) := by
  induction cs generalizing a st s with
  | nil => simp
  | cons c rest ih =>
    by_cases h : c.startOk
    · simp [initStep, h, ih, List.filter_cons, List.all_cons]
    · have h2 : c.startOk = false := by
        cases hb : c.startOk with
        | true => exact absurd hb h
        | false => rfl
      simp [initStep, h2, ih, List.filter_cons, List.all_cons]

/-- C6: on a not-yet-initialized registry, `initialize_all` attempts
`start()` on every registered backend whatever fails along the way, the
backends left started are exactly those whose `start()` succeeded, the
returned boolean is true precisely when every backend started, and the
registry keeps its full backend list afterwards. -/
theorem C6_initialize_all_attempts_every_backend (m : RecManager)
    (h : m.initialized = false) :
    (initialize_all m).attempted = m.clients.map RecClient.name ∧
    (initialize_all m).success = m.clients.all RecClient.startOk ∧
    (initialize_all m).started = (m.clients.filter RecClient.startOk).map RecClient.name ∧
    (initialize_all m).final.clients = m.clients := by
  simp [initialize_all, h, foldl_initStep]

/-- C6 witness: two backends, the second of which fails to start — the
first is still attempted and started, the call returns false, and the
registry keeps both backends. -/
theorem C6_initialize_all_attempts_every_backend_witness :
    (initialize_all { clients := [{ name := "axdriver", startOk := true },
                                  { name := "chromebridge", startOk := false }],
                      initialized := false }).attempted = ["axdriver", "chromebridge"] ∧
    (initialize_all { clients := [{ name := "axdriver", startOk := true },
                                  { name := "chromebridge", startOk := false }],
                      initialized := false }).success = false ∧
    (initialize_all { clients := [{ name := "axdriver", startOk := true },
                                  { name := "chromebridge", startOk := false }],
                      initialized := false }).started = ["axdriver"] := by
  have h := C6_initialize_all_attempts_every_backend
    { clients := [{ name := "axdriver", startOk := true },
                  { name := "chromebridge", startOk := false }],
      initialized := false } rfl
  exact ⟨h.1, h.2.1, h.2.2.1⟩

/-- C7 counterexample: the claim says that when tier 1 (no open debug
port) and tier 2 (no locatable executable) fail, the manager still
attempts tiers 3 *and* 4.  In the source, `get_chrome_instance` returns
`(None, None, None)` when no executable is found, and every launch
fallback in `_get_browser_client` except the bundled one is guarded by
`if chrome_path:` — so tier 3 (profile-less launch of the real
executable) is never attempted: only the bundled tier runs. -/
theorem C7_counterexample_no_executable_skips_standard_launch :
    acquire_browser
      { chromeFound := false, userProfileFound := false,
        existingDebugPort := none, launchDebugOk := false }
      { cdpOk := true, profileLaunchOk := true,
        standardLaunchOk := true, bundledOk := true } =
      ([Tier.bundled], Except.ok Tier.bundled) ∧
    Tier.launchStandard ∉
      (acquire_browser
        { chromeFound := false, userProfileFound := false,
          existingDebugPort := none, launchDebugOk := false }
        { cdpOk := true, profileLaunchOk := true,
          standardLaunchOk := true, bundledOk := true }).1 := by
  exact ⟨rfl, by decide⟩

/-- C7 as amended: an exception or failure in an earlier tier only
advances acquisition to the next *applicable* tier.  With no locatable
executable, acquisition does not fail immediately: the bundled engine
(tier 4) is still attempted and its result reported; whenever the
bundled launch works, acquisition succeeds with some tier; and the fatal
`RuntimeError` reaches the caller only when the bundled tier was
attempted and failed — i.e. only on exhaustion. -/
theorem C7_browser_fallback_chain (cenv : ChromeEnv) (benv : BrowserEnv) :
    (cenv.chromeFound = false →
      (acquire_browser cenv benv).1 = [Tier.bundled]) ∧
    (benv.bundledOk = true →
      ∃ t, (acquire_browser cenv benv).2 = Except.ok t) ∧
    (∀ msg, (acquire_browser cenv benv).2 = Except.error msg →
      benv.bundledOk = false ∧ Tier.bundled ∈ (acquire_browser cenv benv).1) := by
  obtain ⟨cf, upf, edp, ldo⟩ := cenv
  obtain ⟨c, p, s, b⟩ := benv
  cases cf <;> cases upf <;> cases edp <;> cases ldo <;>
    cases c <;> cases p <;> cases s <;> cases b <;>
    simp [acquire_browser, get_chrome_instance, get_browser_client,
      tryProfileLaunch, tryStandard, tryBundled]

/-- C7 witness: tiers 1-3 all unavailable, bundled engine working —
acquisition still reaches and reports tier 4. -/
theorem C7_browser_fallback_chain_witness :
    (acquire_browser
      { chromeFound := false, userProfileFound := false,
        existingDebugPort := none, launchDebugOk := false }
      { cdpOk := false, profileLaunchOk := false,
        standardLaunchOk := false, bundledOk := true }).1 = [Tier.bundled] ∧
    ∃ t, (acquire_browser
      { chromeFound := false, userProfileFound := false,
        existingDebugPort := none, launchDebugOk := false }
      { cdpOk := false, profileLaunchOk := false,
        standardLaunchOk := false, bundledOk := true }).2 = Except.ok t := by
  have h := C7_browser_fallback_chain
    { chromeFound := false, userProfileFound := false,
      existingDebugPort := none, launchDebugOk := false }
    { cdpOk := false, profileLaunchOk := false,
      standardLaunchOk := false, bundledOk := true }
  exact ⟨h.1 rfl, h.2.1 rfl⟩

/-- `should_restart_browser_session` returns false exactly when the
session age does not exceed 1800 seconds, the observed memory does not
exceed 1024 MB, and an open page answered the responsiveness probe. -/
theorem should_restart_false_iff (st : SessionState) :
    should_restart_browser_session st = false ↔
      ((∀ a, st.sessionAge = some a → a ≤ 1800) ∧
       (∀ m, st.memoryMB = some m → m ≤ 1024) ∧
       (st.pageOpen = true → st.pageResponsive = true)) := by
  obtain ⟨po, pr, age, mem, dpo, sid⟩ := st
  cases po <;> cases pr <;> cases age <;> cases mem <;>
    simp [should_restart_browser_session] <;> omega

/-- When every observed session age is within the TTL, the cached-instance
age guard of `get_chrome_instance` (line 397) does not fire. -/
theorem cachedInstanceOverTTL_eq_false (st : SessionState)
    (hage : ∀ a, st.sessionAge = some a → a ≤ 1800) :
    cachedInstanceOverTTL st = false := by
  unfold cachedInstanceOverTTL
  cases ha : st.sessionAge with
  | none => rfl
  | some a =>
    simp only [decide_eq_false_iff_not]
    exact Nat.not_lt.mpr (hage a ha)

/-- C8 counterexample, refuting two parts of the claim.  First, the
claim says a session is reused only if its age is *below* the fixed
30-minute time-to-live: the source restarts only when
`session_age_seconds > 1800`, so a session whose age is exactly 1800
seconds (not below the TTL) is still reused with its old identity.
Second, the claim says a session is reused only if its page handle
reports open: with the page handle closed but the manager's Chrome still
listening on the cached debug port and the age within the TTL, no
restart trigger fires and `get_chrome_instance` (lines 394-402) returns
the *same* debug port — the same session identity comes back without any
teardown, despite the unopen page handle. -/
theorem C8_counterexample_ttl_boundary :
    ensure_fresh_browser_session
      { pageOpen := true, pageResponsive := true, sessionAge := some 1800,
        memoryMB := some 100, debugPortOpen := true, sessionId := 7 } 99 =
      AcquireResult.reused 7 ∧
    ensure_fresh_browser_session
      { pageOpen := false, pageResponsive := false, sessionAge := some 60,
        memoryMB := some 100, debugPortOpen := true, sessionId := 7 } 99 =
      AcquireResult.reattached 7 := by
  decide

/-- C8 as amended: the session's *page handle* is reused on
re-acquisition only if it reports open, the session age does not
*exceed* the 1800-second time-to-live, and the responsiveness probe
succeeded — and whenever those hold (and observed memory is not
excessive) acquisition returns the same session identity.  When the page
handle is closed but the manager's Chrome still listens on the cached
debug port and the age is within the TTL (and memory is not excessive),
the manager reattaches to that same instance — same debug port, no
teardown — so same-identity re-acquisition does not require an open page
handle.  Once the age strictly exceeds the TTL, the session is torn down
and a new identity returned. -/
theorem C8_session_reuse_policy (st : SessionState) (freshId : Nat) :
    (ensure_fresh_browser_session st freshId = AcquireResult.reused st.sessionId →
      st.pageOpen = true ∧ st.pageResponsive = true ∧
      (∀ a, st.sessionAge = some a → a ≤ 1800)) ∧
    (st.pageOpen = true → st.pageResponsive = true →
      (∀ a, st.sessionAge = some a → a ≤ 1800) →
      (∀ m, st.memoryMB = some m → m ≤ 1024) →
      ensure_fresh_browser_session st freshId = AcquireResult.reused st.sessionId) ∧
    (∀ a, st.sessionAge = some a → 1800 < a →
      ensure_fresh_browser_session st freshId = AcquireResult.replaced true freshId) ∧
    (ensure_fresh_browser_session st freshId = AcquireResult.reattached st.sessionId →
      st.pageOpen = false ∧ st.debugPortOpen = true ∧
      (∀ a, st.sessionAge = some a → a ≤ 1800)) ∧
    (st.pageOpen = false → st.debugPortOpen = true →
      (∀ a, st.sessionAge = some a → a ≤ 1800) →
      (∀ m, st.memoryMB = some m → m ≤ 1024) →
      ensure_fresh_browser_session st freshId = AcquireResult.reattached st.sessionId) := by
  refine ⟨?_, ?_, ?_, ?_, ?_⟩
  · intro hres
    cases hsr : should_restart_browser_session st with
    | true =>
      rw [ensure_fresh_browser_session, if_pos hsr] at hres
      cases hres
    | false =>
      obtain ⟨hage, hmem, hresp⟩ := (should_restart_false_iff st).mp hsr
      cases hpo : st.pageOpen with
      | false =>
        rw [ensure_fresh_browser_session, if_neg (by rw [hsr]; exact Bool.false_ne_true),
          if_neg (by rw [hpo]; exact Bool.false_ne_true)] at hres
        split at hres
        · split at hres <;> cases hres
        · cases hres
      | true => exact ⟨rfl, hresp hpo, hage⟩
  · intro hpo hresp hage hmem
    have hsr : should_restart_browser_session st = false :=
      (should_restart_false_iff st).mpr ⟨hage, hmem, fun _ => hresp⟩
    rw [ensure_fresh_browser_session, if_neg (by rw [hsr]; exact Bool.false_ne_true),
      if_pos hpo]
  · intro a hage h1800
    have hsr : should_restart_browser_session st = true := by
      cases hs : should_restart_browser_session st with
      | true => rfl
      | false =>
        obtain ⟨hle, _, _⟩ := (should_restart_false_iff st).mp hs
        exact absurd (hle a hage) (by omega)
    rw [ensure_fresh_browser_session, if_pos hsr]
  · intro hres
    cases hsr : should_restart_browser_session st with
    | true =>
      rw [ensure_fresh_browser_session, if_pos hsr] at hres
      cases hres
    | false =>
      obtain ⟨hage, hmem, hresp⟩ := (should_restart_false_iff st).mp hsr
      cases hpo : st.pageOpen with
      | true =>
        rw [ensure_fresh_browser_session, if_neg (by rw [hsr]; exact Bool.false_ne_true),
          if_pos hpo] at hres
        cases hres
      | false =>
        cases hdp : st.debugPortOpen with
        | false =>
          rw [ensure_fresh_browser_session, if_neg (by rw [hsr]; exact Bool.false_ne_true),
            if_neg (by rw [hpo]; exact Bool.false_ne_true),
            if_neg (by rw [hdp]; exact Bool.false_ne_true)] at hres
          cases hres
        | true => exact ⟨rfl, rfl, hage⟩
  · intro hpo hdp hage hmem
    have hsr : should_restart_browser_session st = false :=
      (should_restart_false_iff st).mpr
        ⟨hage, hmem, fun hop => absurd hop (by rw [hpo]; exact Bool.false_ne_true)⟩
    have hcond := cachedInstanceOverTTL_eq_false st hage
    rw [ensure_fresh_browser_session, if_neg (by rw [hsr]; exact Bool.false_ne_true),
      if_neg (by rw [hpo]; exact Bool.false_ne_true), if_pos hdp,
      if_neg (by rw [hcond]; exact Bool.false_ne_true)]

/-- C8 witness: a healthy young session (age 60s) is reused with the
same identity; after the age strictly exceeds the TTL it is torn down
and replaced; and with the page closed but Chrome alive on the cached
port, the same identity is reattached without teardown. -/
theorem C8_session_reuse_policy_witness :
    ensure_fresh_browser_session
      { pageOpen := true, pageResponsive := true, sessionAge := some 60,
        memoryMB := some 100, debugPortOpen := true, sessionId := 5 } 42 =
      AcquireResult.reused 5 ∧
    ensure_fresh_browser_session
      { pageOpen := true, pageResponsive := true, sessionAge := some 1801,
        memoryMB := some 100, debugPortOpen := true, sessionId := 5 } 42 =
      AcquireResult.replaced true 42 ∧
    ensure_fresh_browser_session
      { pageOpen := false, pageResponsive := false, sessionAge := some 60,
        memoryMB := some 100, debugPortOpen := true, sessionId := 5 } 42 =
      AcquireResult.reattached 5 := by
  refine ⟨?_, ?_, ?_⟩
  · exact (C8_session_reuse_policy
      { pageOpen := true, pageResponsive := true, sessionAge := some 60,
        memoryMB := some 100, debugPortOpen := true, sessionId := 5 } 42).2.1 rfl rfl
      (by intro a ha; cases ha; omega) (by intro m hm; cases hm; omega)
  · exact (C8_session_reuse_policy
      { pageOpen := true, pageResponsive := true, sessionAge := some 1801,
        memoryMB := some 100, debugPortOpen := true, sessionId := 5 } 42).2.2.1 1801 rfl
      (by omega)
  · exact (C8_session_reuse_policy
      { pageOpen := false, pageResponsive := false, sessionAge := some 60,
        memoryMB := some 100, debugPortOpen := true, sessionId := 5 } 42).2.2.2.2 rfl rfl
      (by intro a ha; cases ha; omega) (by intro m hm; cases hm; omega)

/-- C9: executing a payload whose source, evaluated against the
execution namespace, does not define a *callable* entry symbol `run` is
always fatal for that run — `KeyError` when the binding is missing (the
prebuilt namespace binds no `run`), `ValueError` when the binding is not
callable — and `load_and_execute_skill` converts either into a failed
run, never a silent success; likewise an exception raised inside `run`
propagates out of `execute_skill` and surfaces as a failed run. -/
theorem C9_missing_or_raising_entry_is_fatal (code : String) (h : code ≠ "")
    (sof : Bool) (src : String) :
    (execute_skill (some code) ExecBehavior.noRun sof = Except.error "KeyError: run" ∧
     load_and_execute_skill (Except.ok src) (some code) ExecBehavior.noRun sof = false) ∧
    (execute_skill (some code) ExecBehavior.runNotCallable sof =
       Except.error "Function run is not callable" ∧
     load_and_execute_skill (Except.ok src) (some code) ExecBehavior.runNotCallable sof = false) ∧
    (∀ m, execute_skill (some code) (ExecBehavior.runRaises m) sof = Except.error m ∧
      load_and_execute_skill (Except.ok src) (some code) (ExecBehavior.runRaises m) sof = false) := by
  have hc : (code == "") = false := by simp [h]
  refine ⟨⟨?_, ?_⟩, ⟨?_, ?_⟩, fun m => ⟨?_, ?_⟩⟩ <;>
    simp [execute_skill, execute_skill_code, load_and_execute_skill, hc]

/-- C9 witness: a source text defining only `x = 1` (no `run`) yields an
error outcome reported as a failed run, and one binding `run` to a
non-callable value yields the `ValueError` outcome. -/
theorem C9_missing_or_raising_entry_is_fatal_witness :
    (execute_skill (some "x = 1") ExecBehavior.noRun true = Except.error "KeyError: run" ∧
     load_and_execute_skill (Except.ok "x = 1") (some "x = 1") ExecBehavior.noRun true = false) ∧
    (execute_skill (some "run = 5") ExecBehavior.runNotCallable true =
       Except.error "Function run is not callable" ∧
     load_and_execute_skill (Except.ok "run = 5") (some "run = 5")
       ExecBehavior.runNotCallable true = false) :=
  ⟨(C9_missing_or_raising_entry_is_fatal "x = 1" (by decide) true "x = 1").1,
   (C9_missing_or_raising_entry_is_fatal "run = 5" (by decide) true "run = 5").2.1⟩

/-- C10: `execute_skill_code` has no return statement, so a successfully
executed payload produces `None`, which is falsy; `execute_skill` then
returns `True` when `stop_on_failure` is off but `False` when it is on —
enabling the flag makes every successfully executed skill report
failure. -/
theorem C10_stop_on_failure_inverts_success (code : String) (h : code ≠ "")
    (v : PyVal) (sof : Bool) :
    execute_skill_code code (ExecBehavior.runReturns v) = Except.ok PyVal.pyNone ∧
    truthy PyVal.pyNone = false ∧
    execute_skill (some code) (ExecBehavior.runReturns v) sof = Except.ok (!sof) := by
  have hc : (code == "") = false := by simp [h]
  refine ⟨?_, rfl, ?_⟩
  · simp [execute_skill_code, hc]
  · cases sof <;> simp [execute_skill, execute_skill_code, truthy, hc]

/-- C10 witness: the same successfully executed payload reports success
with the flag off and failure with the flag on. -/
theorem C10_stop_on_failure_inverts_success_witness :
    execute_skill (some "run = f") (ExecBehavior.runReturns PyVal.pyNone) false =
      Except.ok true ∧
    execute_skill (some "run = f") (ExecBehavior.runReturns PyVal.pyNone) true =
      Except.ok false :=
  ⟨(C10_stop_on_failure_inverts_success "run = f" (by decide) PyVal.pyNone false).2.2,
   (C10_stop_on_failure_inverts_success "run = f" (by decide) PyVal.pyNone true).2.2⟩

end Sisypho
